import Mathlib

/-!
Verification of the asynchronous export subsystem of the db_query backend
(`app/services/export.py`, `app/config.py`, `app/models/export.py`).

The Python source is shallowly embedded: pure helpers become Lean functions,
the mutable task registry becomes explicit state passing, and the background
export runner together with the concurrently invokable `cancel_task` becomes
a small-step transition system over an explicit system state.  Machine
integers are modelled as `Nat`/`Int` (Python integers are unbounded, so no
wrap-around is needed).  Python `float` quantities (`estimated_mb`, the
float intermediate in the progress computation) are not modelled; where the
code computes `int(a / b * 100)` on non-negative integers we use the exact
rational floor `a * 100 / b`.  File contents are abstracted to existence:
no analysed property depends on the bytes in the export file, only on
whether a file is present at the task's path.
-/

namespace DbExport

/-! ### Enums (`app/models/export.py`) -/

/-- `ExportFormat(str, Enum)`: CSV / JSON / MARKDOWN. -/
inductive ExportFormat
  | csv
  | json
  | markdown
deriving DecidableEq, Repr

/-- `ExportScope(str, Enum)`: CURRENT_PAGE / ALL_DATA. -/
inductive ExportScope
  | current_page
  | all_data
deriving DecidableEq, Repr

/-- `TaskStatus(str, Enum)`: pending / running / completed / failed / cancelled. -/
inductive TaskStatus
  | pending
  | running
  | completed
  | failed
  | cancelled
deriving DecidableEq, Repr

/-- The status test used by `cancel_task` and `_get_active_task_count`:
`status in (TaskStatus.PENDING, TaskStatus.RUNNING)`. -/
def TaskStatus.isActive : TaskStatus → Bool
  | .pending => true
  | .running => true
  | _ => false

/-- A status is terminal when it is not PENDING/RUNNING. -/
def TaskStatus.isTerminal (s : TaskStatus) : Bool := !s.isActive

/-! ### Row values and the row serializers
(`ExportService._serialize_value`, `_serialize_for_json`,
`_generate_csv_row`, `_generate_json_row`, `_generate_markdown_row`)

A database row value is one of the Python types the serializers dispatch on.
`vdatetime` carries the ISO-8601 string `value.isoformat()` would produce;
`vdecimal` carries the canonical string `str(value)` of the `Decimal`;
`vbytes` carries the result of `value.decode("utf-8", errors="replace")`.
Python `float` row values are outside the model. -/

inductive PyValue
  | vnull
  | vstr (s : String)
  | vint (n : Int)
  | vbool (b : Bool)
  | vdatetime (iso : String)
  | vdecimal (canonical : String)
  | vbytes (decoded : String)
deriving DecidableEq, Repr

/-- `str()` of a Python value, as used by `_serialize_value`'s else-branch. -/
def pyStr : PyValue → String
  | .vnull => "None"
  | .vstr s => s
  | .vint n => toString n
  | .vbool b => if b then "True" else "False"
  | .vdatetime iso => iso
  | .vdecimal c => c
  | .vbytes s => s

/-- `ExportService._serialize_value`: value → string, used by the CSV and
Markdown row generators.  `None` → `""`; `datetime` → `isoformat()`;
`Decimal` → `str(value)` (the exact canonical string); `bytes` →
UTF-8 decode with replacement; anything else → `str(value)`. -/
def serialize_value : PyValue → String
  | .vnull => ""
  | .vdatetime iso => iso
  | .vdecimal c => c
  | .vbytes s => s
  | v => pyStr v

/-- The JSON-ready value produced by `ExportService._serialize_for_json`
for a single row value.  A `Decimal` is passed through `float(value)`:
the result is a binary floating-point JSON number, not a string; only
that fact (the constructor) is modelled, the numeric payload keeps the
decimal's canonical string for identification. -/
inductive JsonReady
  | jnull
  | jstr (s : String)
  | jfloatOfDecimal (canonical : String)
  | jint (n : Int)
  | jbool (b : Bool)
deriving DecidableEq, Repr

/-- `ExportService._serialize_for_json` on a single value:
`None` → `None`; `datetime` → `isoformat()` string; `Decimal` →
`float(value)` (a JSON number); `bytes` → decoded string; else unchanged. -/
def serialize_for_json : PyValue → JsonReady
  | .vnull => .jnull
  | .vdatetime iso => .jstr iso
  | .vdecimal c => .jfloatOfDecimal c
  | .vbytes s => .jstr s
  | .vstr s => .jstr s
  | .vint n => .jint n
  | .vbool b => .jbool b

/-- Is a JSON-ready value a JSON string? -/
def JsonReady.isStr : JsonReady → Bool
  | .jstr _ => true
  | _ => false

/-- A database row: Python `dict[str, Any]`, insertion-ordered. -/
abbrev Row := List (String × PyValue)

/-- `row.get(name)`: `None` when the key is absent. -/
def rowGet (row : Row) (name : String) : PyValue :=
  match List.lookup name row with
  | some v => v
  | none => .vnull

/-- `ExportService._generate_csv_row`: the list of serialized field strings
for one row, one entry per column (handed to `csv.writer.writerow`). -/
def generate_csv_row (columns : List String) (row : Row) : List String :=
  columns.map (fun c => serialize_value (rowGet row c))

/-- Markdown cell escaping: `serialized.replace("|", "\\|")`. -/
def escapeMdCell (s : String) : String :=
  s.replace "|" "\\|"

/-- `ExportService._generate_markdown_row`:
`"| " + " | ".join(values) + " |"` over the pipe-escaped serialized cells. -/
def generate_markdown_row (columns : List String) (row : Row) : String :=
  "| " ++ String.intercalate " | "
      (columns.map (fun c => escapeMdCell (serialize_value (rowGet row c)))) ++ " |"

/-! `_generate_json_row` passes the whole row dict to `_serialize_for_json`,
whose `isinstance` dispatch matches none of its cases for a `dict`, so the
dict is returned unchanged and `json.dumps(row, ensure_ascii=False)` sees the
raw values.  `json.dumps` renders `None`/`str`/`int`/`bool` natively and
raises `TypeError` for `datetime`, `Decimal` and `bytes` values. -/

/-- Hex digit for `\uXXXX` escapes. -/
def hexDigit (n : Nat) : Char :=
  if n < 10 then Char.ofNat (48 + n) else Char.ofNat (87 + n)

/-- Four-digit lowercase hex, as in Python's `json` `\uXXXX` escapes. -/
def hex4 (n : Nat) : String :=
  String.mk [hexDigit (n / 4096 % 16), hexDigit (n / 256 % 16),
             hexDigit (n / 16 % 16), hexDigit (n % 16)]

/-- `json.dumps` escaping for one character inside a string
(`ensure_ascii=False`: non-ASCII characters pass through unescaped). -/
def jsonEscapeChar (c : Char) : String :=
  if c = '"' then "\\\""
  else if c = '\\' then "\\\\"
  else if c = Char.ofNat 10 then "\\n"
  else if c = Char.ofNat 13 then "\\r"
  else if c = Char.ofNat 9 then "\\t"
  else if c = Char.ofNat 8 then "\\b"
  else if c = Char.ofNat 12 then "\\f"
  else if c.toNat < 32 then "\\u" ++ hex4 c.toNat
  else String.mk [c]

/-- `json.dumps` rendering of a Python string. -/
def jsonQuote (s : String) : String :=
  "\"" ++ String.join (s.toList.map jsonEscapeChar) ++ "\""

/-- `json.dumps` on one raw row value.  `datetime`, `Decimal` and `bytes`
are not JSON serializable and raise `TypeError`. -/
def json_dumps_prim : PyValue → Except String String
  | .vnull => .ok "null"
  | .vstr s => .ok (jsonQuote s)
  | .vint n => .ok (toString n)
  | .vbool b => .ok (if b then "true" else "false")
  | .vdatetime _ => .error "Object of type datetime is not JSON serializable"
  | .vdecimal _ => .error "Object of type Decimal is not JSON serializable"
  | .vbytes _ => .error "Object of type bytes is not JSON serializable"

/-- The `"key": value` fragments of `json.dumps` on a dict, in insertion
order (default separators `", "` and `": "`). -/
def json_dumps_pairs : List (String × PyValue) → Except String (List String)
  | [] => .ok []
  | (k, v) :: rest => do
      let ev ← json_dumps_prim v
      let er ← json_dumps_pairs rest
      .ok ((jsonQuote k ++ ": " ++ ev) :: er)

/-- `ExportService._generate_json_row`: `json.dumps` of the raw row dict
(`_serialize_for_json` is the identity on a dict, see above). -/
def generate_json_row (row : Row) : Except String String :=
  (json_dumps_pairs row).map
    (fun parts => "\x7b" ++ String.intercalate ", " parts ++ "\x7d")

/-! ### Configuration (`app/config.py`, export section of `Settings`) -/

/-- The export-related fields of `Settings` with their declared defaults. -/
structure Settings where
  export_max_file_size_mb : Nat
  export_timeout_seconds : Nat
  export_max_concurrent_per_user : Nat
  export_retention_days : Nat
deriving DecidableEq, Repr

/-- The defaults written in `app/config.py`. -/
def defaultSettings : Settings :=
  { export_max_file_size_mb := 100
    export_timeout_seconds := 300
    export_max_concurrent_per_user := 3
    export_retention_days := 7 }

/-! ### Query results and size estimation
(`ExportService.estimate_file_size`, `_estimate_by_metadata`,
`_estimate_by_sampling`)

The database adapter is the external collaborator
`execute_query(sql) -> QueryResult`; it is modelled as a function from the
SQL string to `Except` (an adapter exception or a result).  Both in-repo
adapters construct `QueryResult` with `row_count=len(rows)`; the model keeps
the field separate and states that contract as a hypothesis where needed.
`columns` keeps only the column names (the only part the export code reads). -/

structure QueryResult where
  columns : List String
  rows : List Row
  row_count : Nat
deriving DecidableEq, Repr

/-- An adapter: `execute_query` as a function of the SQL text. -/
def Adapter := String → Except String QueryResult

/-- Both in-repo adapters set `row_count=len(rows)` when building a
`QueryResult`. -/
def AdapterOk (a : Adapter) : Prop :=
  ∀ q r, a q = .ok r → r.row_count = r.rows.length

/-- The count query wrapped around the caller's SQL:
`SELECT COUNT(*) as total FROM (<sql>) AS subq`. -/
def countSql (sql : String) : String :=
  "SELECT COUNT(*) as total FROM (" ++ sql ++ ") AS subq"

/-- `count_result.rows[0]["total"]`: the first row's `total` value.
An empty result raises `IndexError`; a missing key raises `KeyError`.
Real adapters return an integer for `COUNT(*)`; a non-integer value is
represented as an error. -/
def getTotal (r : QueryResult) : Except String Int :=
  match r.rows with
  | [] => .error "IndexError: list index out of range"
  | row :: _ =>
      match List.lookup "total" row with
      | some (.vint n) => .ok n
      | some _ => .error "TypeError: COUNT value is not an integer"
      | none => .error "KeyError: total"

/-- The `avg_row_sizes` table of `_estimate_by_metadata`
(`.get(export_format, 100)`; every format is present, so the default is
never consulted). -/
def avg_row_sizes : ExportFormat → Nat
  | .csv => 100
  | .json => 150
  | .markdown => 120

/-- A size estimate (`SizeEstimate` schema).  `estimated_mb` is a Python
float (`estimated_bytes / 2**20` rounded to two places) and is omitted. -/
structure SizeEstimate where
  estimated_bytes : Int
  bytes_per_row : Int
  method : String
  confidence : String
  sample_size : Option Nat
deriving DecidableEq, Repr

/-- `ExportService._estimate_by_metadata`: one COUNT query, multiplied by
the per-format per-row constant. -/
def estimate_by_metadata (adapter : Adapter) (sql : String)
    (export_format : ExportFormat) : Except String SizeEstimate := do
  let count_result ← adapter (countSql sql)
  let row_count ← getTotal count_result
  let bytes_per_row := avg_row_sizes export_format
  .ok { estimated_bytes := row_count * bytes_per_row
        bytes_per_row := bytes_per_row
        method := "metadata"
        confidence := "low"
        sample_size := none }

/-- The per-row contribution to `sample_bytes` in `_estimate_by_sampling`'s
`if`/`elif` chain: `len(_generate_csv_row(...))` for CSV — the length of
the Python *list* of fields, i.e. the number of columns — and `len(...)`
of the generated row *string* (a character count, not a byte count) for
JSON and Markdown.  A JSON `TypeError` from `json.dumps` propagates. -/
def sampleRowMeasure (export_format : ExportFormat) (columns : List String)
    (row : Row) : Except String Nat :=
  match export_format with
  | .csv => .ok (generate_csv_row columns row).length
  | .json => (generate_json_row row).map String.length
  | .markdown => .ok (generate_markdown_row columns row).length

/-- The `sample_bytes` accumulation loop of `_estimate_by_sampling`. -/
def sampleBytes (export_format : ExportFormat) (columns : List String) :
    List Row → Except String Nat
  | [] => .ok 0
  | row :: rest => do
      let b ← sampleRowMeasure export_format columns row
      let brest ← sampleBytes export_format columns rest
      .ok (b + brest)

/-- `ExportService._estimate_by_sampling`: run `<sql> LIMIT <sample_size>`,
measure the sampled rows, divide by the sampled-row count (`//`, floor) or
fall back to the constant `100` when the sample is empty, then multiply by
the COUNT of the full query. -/
def estimate_by_sampling (adapter : Adapter) (sql : String)
    (export_format : ExportFormat) (sample_size : Nat) :
    Except String SizeEstimate := do
  let result ← adapter (sql ++ " LIMIT " ++ toString sample_size)
  let sample_bytes ← sampleBytes export_format result.columns result.rows
  let bytes_per_row : Nat :=
    if result.row_count > 0 then sample_bytes / result.row_count else 100
  let count_result ← adapter (countSql sql)
  let total_rows ← getTotal count_result
  .ok { estimated_bytes := total_rows * bytes_per_row
        bytes_per_row := bytes_per_row
        method := "sample"
        confidence := "medium"
        sample_size := some result.row_count }

/-! ### Task records and the task registry
(`Task.__init__`, `TaskManager` in `app/services/export.py`)

Timestamps are drawn from a logical clock (a `Nat`); only their identity
and change matter to the analysed properties.  The `asyncio.Event`
cancellation flag is the boolean `cancel_requested` (set once by
`Task.cancel`, read by `Task.is_cancelled`). -/

structure Task where
  task_id : String
  user_id : String
  database_name : String
  sql : String
  export_format : ExportFormat
  export_scope : ExportScope
  file_path : String
  status : TaskStatus
  progress : Nat
  error : Option String
  file_size_bytes : Option Nat
  row_count : Option Nat
  started_at : Option Nat
  completed_at : Option Nat
  execution_time_ms : Option Nat
  cancel_requested : Bool
deriving DecidableEq, Repr

/-- `Task.__init__`: a fresh PENDING task with progress 0, every optional
field unset and the cancellation flag clear. -/
def mkTask (task_id user_id database_name sql : String)
    (export_format : ExportFormat) (export_scope : ExportScope)
    (file_path : String) : Task :=
  { task_id := task_id
    user_id := user_id
    database_name := database_name
    sql := sql
    export_format := export_format
    export_scope := export_scope
    file_path := file_path
    status := .pending
    progress := 0
    error := none
    file_size_bytes := none
    row_count := none
    started_at := none
    completed_at := none
    execution_time_ms := none
    cancel_requested := false }

/-- The keyword arguments of `TaskManager.update_task`; `none` is Python's
`None` default, meaning "leave the field alone". -/
structure TaskUpdate where
  status : Option TaskStatus
  progress : Option Nat
  error : Option String
  file_size_bytes : Option Nat
  row_count : Option Nat
  started_at : Option Nat
  completed_at : Option Nat
  execution_time_ms : Option Nat
deriving DecidableEq, Repr

/-- The all-`None` argument list. -/
def TaskUpdate.empty : TaskUpdate :=
  ⟨none, none, none, none, none, none, none, none⟩

/-- The argument list of a bare status update (`update_task(task_id,
status=st)`), as used to mark a task terminal. -/
def terminalUpdate (st : TaskStatus) : TaskUpdate :=
  { TaskUpdate.empty with status := some st }

/-- The per-field assignments of `TaskManager.update_task`: each field is
overwritten exactly when the corresponding argument `is not None`. -/
def applyUpdate (t : Task) (u : TaskUpdate) : Task :=
  { t with
    status := match u.status with | some s => s | none => t.status
    progress := match u.progress with | some p => p | none => t.progress
    error := match u.error with | some e => some e | none => t.error
    file_size_bytes :=
      match u.file_size_bytes with | some b => some b | none => t.file_size_bytes
    row_count := match u.row_count with | some c => some c | none => t.row_count
    started_at := match u.started_at with | some x => some x | none => t.started_at
    completed_at :=
      match u.completed_at with | some x => some x | none => t.completed_at
    execution_time_ms :=
      match u.execution_time_ms with | some x => some x | none => t.execution_time_ms }

/-- The process-wide registry: the `_tasks` dict as an insertion-ordered
association list, plus the configured per-user limit
(`settings.export_max_concurrent_per_user`, default 3). -/
structure TaskManager where
  tasks : List (String × Task)
  max_concurrent_per_user : Nat
deriving DecidableEq, Repr

/-- Python dict assignment `self._tasks[task_id] = task`: replace the
binding if the key is present, otherwise append. -/
def dictInsert (l : List (String × Task)) (key : String) (t : Task) :
    List (String × Task) :=
  match l with
  | [] => [(key, t)]
  | (k, v) :: rest =>
      if k = key then (k, t) :: rest else (k, v) :: dictInsert rest key t

/-- Python dict read `self._tasks.get(task_id)`. -/
def dictGet (l : List (String × Task)) (key : String) : Option Task :=
  match l with
  | [] => none
  | (k, v) :: rest => if key = k then some v else dictGet rest key

/-- Pointwise update of the binding for `task_id` (the mutation of the
stored `Task` object performed by `update_task`'s field assignments). -/
def updateEntries (l : List (String × Task)) (task_id : String)
    (u : TaskUpdate) : List (String × Task) :=
  match l with
  | [] => []
  | (k, v) :: rest =>
      if k = task_id then (k, applyUpdate v u) :: updateEntries rest task_id u
      else (k, v) :: updateEntries rest task_id u

/-- `TaskManager._get_active_task_count`: tasks of the user whose status is
PENDING or RUNNING. -/
def TaskManager.get_active_task_count (m : TaskManager) (user_id : String) : Nat :=
  m.tasks.countP (fun p => p.2.user_id = user_id ∧ p.2.status.isActive = true)

/-- `TaskManager.add_task`: raise `ConcurrentTaskLimitError` when the user's
active count has reached the limit, otherwise insert.  There is no `await`
between the count and the insert, so under the single-threaded event loop
the check-and-insert region is atomic; it is one transition here. -/
def TaskManager.add_task (m : TaskManager) (t : Task) :
    Except String TaskManager :=
  if m.get_active_task_count t.user_id ≥ m.max_concurrent_per_user then
    .error ("Maximum " ++ toString m.max_concurrent_per_user ++
      " concurrent export tasks per user allowed")
  else
    .ok { m with tasks := dictInsert m.tasks t.task_id t }

/-- `TaskManager.get_task`: `self._tasks.get(task_id)`. -/
def TaskManager.get_task (m : TaskManager) (task_id : String) : Option Task :=
  dictGet m.tasks task_id

/-- `TaskManager.update_task`: warn-and-return when the id is unknown,
otherwise apply the non-`None` field assignments to the stored task. -/
def TaskManager.update_task (m : TaskManager) (task_id : String)
    (u : TaskUpdate) : TaskManager :=
  match dictGet m.tasks task_id with
  | none => m
  | some _ => { m with tasks := updateEntries m.tasks task_id u }

/-- `TaskManager.remove_task`: delete the binding if present. -/
def TaskManager.remove_task (m : TaskManager) (task_id : String) : TaskManager :=
  { m with tasks := m.tasks.filter (fun p => p.1 ≠ task_id) }

/-! ### The background runner and cancellation as a transition system
(`ExportService._execute_export_task`, `_validate_export_constraints`,
`_export_to_csv` / `_export_to_json` / `_export_to_markdown`,
`ExportService.cancel_task`)

One export task's background run, interleaved with request handlers that may
call `cancel_task`, is a small-step system.  The runner yields to the event
loop only at genuine suspension points (the estimator's COUNT query, the
data query, `asyncio.wait_for`'s task scheduling); the code between two
yields is atomic, and each such block is one step below.  The model permits
cancellation between any two steps — strictly more interleavings than the
event loop allows — so safety theorems proved over all traces cover the real
interleavings, and every counterexample trace used places `cancelRequest`
only at a genuine suspension point (before the runner starts, or while a
query is awaited).

The three per-format writers share the loop structure verbatim — open the
file (creating it), emit the header, then per row: check the cancellation
flag (raising `asyncio.CancelledError` if set), write the row, and every
1000th row publish `int((idx + 1) / result.row_count * 100)` — so the model
covers all three; the bytes written differ per format and are abstracted to
the file's existence.  The progress expression divides Python floats; on the
non-negative integers involved it is modelled as the exact rational floor
`(idx + 1) * 100 / row_count`.  `task.row_count = result.row_count` is a
direct attribute write on the shared `Task` object, not an `update_task`
call, and is modelled the same way. -/

/-- `int((completed - started).total_seconds() * 1000)` and the timestamps
are drawn from the logical clock; `file_path.stat().st_size` is abstracted
(no claim depends on the value). -/
def statSize : Nat := 0

/-- The message of the `FileSizeExceededError` raised by
`_validate_export_constraints`; the real text interpolates float-formatted
MB values, which are abstracted away. -/
def fileSizeExceededMessage : String :=
  "Estimated file size exceeds maximum allowed"

/-- `asyncio.wait_for` raises `TimeoutError()` with no argument, and the
generic failure handler stores `str(e)` — the empty string. -/
def timeoutMessage : String := ""

/-- The runner's control point between suspension blocks.  `writing idx
nrows rcount` is the row loop with `idx` rows already written, `nrows =
len(result.rows)` iterations in total and `rcount = result.row_count` the
progress divisor. -/
inductive Phase
  | scheduled
  | validating
  | querying
  | writing (idx nrows rcount : Nat)
  | finished
deriving DecidableEq, Repr

/-- The fixed data of one run. `max_file_size_bytes` is
`settings.export_max_file_size_mb * 1024 * 1024`. -/
structure RunCtx where
  adapter : Adapter
  sql : String
  export_format : ExportFormat
  max_file_size_bytes : Nat

/-- One export task's world: its (registry-shared) record, whether a file
currently exists at its `file_path`, the runner's control point, a logical
clock supplying timestamps, the clock value captured as `started_at` at the
top of `_execute_export_task`, and a ghost log of the SQL strings sent to
`adapter.execute_query` by the writer (for real data, not estimation). -/
structure Sys where
  task : Task
  fileExists : Bool
  phase : Phase
  clock : Nat
  runner_started_at : Nat
  dataQueries : List String
deriving DecidableEq, Repr

/-- Events: the runner's suspension blocks plus a `cancel_task` request. -/
inductive Ev
  | runnerStart
  | runnerValidate
  | runnerQuery
  | runnerTimeout
  | runnerWriteRow
  | runnerFinish
  | cancelRequest
deriving DecidableEq, Repr

/-- The `except Exception` branch of `_execute_export_task`: update to
FAILED with `error=str(e)` and `completed_at`, then unlink the partial file
if one exists. -/
def failStep (s : Sys) (msg : String) : Sys :=
  { s with
    task := applyUpdate s.task
      { TaskUpdate.empty with
          status := some .failed
          error := some msg
          completed_at := some s.clock }
    fileExists := false
    phase := .finished
    clock := s.clock + 1 }

/-- One atomic block of the system.  An event whose phase precondition does
not hold leaves the state unchanged (apart from the clock). -/
def step (ctx : RunCtx) (ev : Ev) (s : Sys) : Sys :=
  match ev with
  | .runnerStart =>
      -- Top of `_execute_export_task`: capture `started_at`, then
      -- `update_task(status=RUNNING, progress=0, started_at=started_at)`,
      -- unconditionally — the current status is not consulted.
      match s.phase with
      | .scheduled =>
          { s with
            task := applyUpdate s.task
              { TaskUpdate.empty with
                  status := some .running
                  progress := some 0
                  started_at := some s.clock }
            runner_started_at := s.clock
            phase := .validating
            clock := s.clock + 1 }
      | _ => { s with clock := s.clock + 1 }
  | .runnerValidate =>
      -- `_validate_export_constraints`: metadata estimate against the max;
      -- `FileSizeExceededError` (or an adapter error from the COUNT query)
      -- lands in the generic failure handler.
      match s.phase with
      | .validating =>
          match estimate_by_metadata ctx.adapter ctx.sql ctx.export_format with
          | .error e => failStep s e
          | .ok est =>
              if est.estimated_bytes > (ctx.max_file_size_bytes : Int) then
                failStep s fileSizeExceededMessage
              else
                { s with phase := .querying, clock := s.clock + 1 }
      | _ => { s with clock := s.clock + 1 }
  | .runnerQuery =>
      -- `result = await adapter.execute_query(sql)` in the writer, then
      -- atomically: `task.row_count = result.row_count`, `open(file_path,
      -- "w")` (creating the file) and the header write.
      match s.phase with
      | .querying =>
          match ctx.adapter ctx.sql with
          | .error e => failStep s e
          | .ok res =>
              { s with
                task := { s.task with row_count := some res.row_count }
                fileExists := true
                dataQueries := s.dataQueries ++ [ctx.sql]
                phase := .writing 0 res.rows.length res.row_count
                clock := s.clock + 1 }
      | _ => { s with clock := s.clock + 1 }
  | .runnerTimeout =>
      -- `asyncio.wait_for` expires while the data query is awaited (the
      -- only suspension point inside the wrapped writer); `TimeoutError`
      -- reaches the generic failure handler, whose `str(e)` is `""`.
      match s.phase with
      | .querying => failStep s timeoutMessage
      | _ => { s with clock := s.clock + 1 }
  | .runnerWriteRow =>
      -- One iteration of the row loop: flag check first (raising
      -- `asyncio.CancelledError`, whose handler updates to CANCELLED with
      -- the current progress and `completed_at` but does NOT delete the
      -- file), otherwise write and, on every 1000th row, publish progress.
      match s.phase with
      | .writing idx nrows rcount =>
          if idx < nrows then
            if s.task.cancel_requested then
              { s with
                task := applyUpdate s.task
                  { TaskUpdate.empty with
                      status := some .cancelled
                      progress := some s.task.progress
                      completed_at := some s.clock }
                phase := .finished
                clock := s.clock + 1 }
            else
              { s with
                task :=
                  if (idx + 1) % 1000 = 0 then
                    applyUpdate s.task
                      { TaskUpdate.empty with
                          progress := some ((idx + 1) * 100 / rcount) }
                  else s.task
                phase := .writing (idx + 1) nrows rcount
                clock := s.clock + 1 }
          else { s with clock := s.clock + 1 }
      | _ => { s with clock := s.clock + 1 }
  | .runnerFinish =>
      -- Loop exhausted: close the file, `stat` it (raising if it is gone),
      -- and update to COMPLETED with progress forced to 100.
      match s.phase with
      | .writing idx nrows _ =>
          if nrows ≤ idx then
            if s.fileExists then
              { s with
                task := applyUpdate s.task
                  { TaskUpdate.empty with
                      status := some .completed
                      progress := some 100
                      file_size_bytes := some statSize
                      completed_at := some s.clock
                      execution_time_ms := some (s.clock - s.runner_started_at) }
                phase := .finished
                clock := s.clock + 1 }
            else failStep s "FileNotFoundError"
          else { s with clock := s.clock + 1 }
      | _ => { s with clock := s.clock + 1 }
  | .cancelRequest =>
      -- `ExportService.cancel_task`: if the task is PENDING or RUNNING, set
      -- the cancellation flag, update to CANCELLED with `completed_at`, and
      -- unlink the file if it exists; otherwise report `False` and change
      -- nothing.  The runner's control point is untouched: the background
      -- coroutine keeps running until it observes the flag.
      if s.task.status.isActive then
        { s with
          task := applyUpdate { s.task with cancel_requested := true }
            { TaskUpdate.empty with
                status := some .cancelled
                completed_at := some s.clock }
          fileExists := false
          clock := s.clock + 1 }
      else { s with clock := s.clock + 1 }

/-- A trace of atomic blocks, applied in order. -/
def run (ctx : RunCtx) (tr : List Ev) (s : Sys) : Sys :=
  tr.foldl (fun s e => step ctx e s) s

/-- The world right after `execute_export` returned: the created task, no
file yet, the runner scheduled but not started. -/
def initSys (t : Task) : Sys :=
  { task := t
    fileExists := false
    phase := .scheduled
    clock := 0
    runner_started_at := 0
    dataQueries := [] }

/-! ### The service façade (`ExportService.execute_export`, `get_task`) -/

/-- The `TaskResponse` schema returned to callers. -/
structure TaskResponse where
  taskId : String
  status : TaskStatus
  progress : Nat
  fileUrl : Option String
  error : Option String
deriving DecidableEq, Repr

/-- `ExportService.execute_export`: build the `Task` (PENDING, progress 0),
add it to the registry — the only synchronous failure, surfacing
`ConcurrentTaskLimitError` — then schedule `_execute_export_task` as a
background `asyncio` task and return the initial response immediately.
`filename` stands for `_generate_filename`'s fresh `export-<uuid4>.<ext>`;
the export-directory prefix of `file_path` is abstracted away.  The
returned triple is the registry after the insert, the created task (whose
background run is `initSys`), and the immediate `TaskResponse`. -/
def execute_export (m : TaskManager) (task_id : String) (sql : String)
    (export_format : ExportFormat) (export_scope : ExportScope)
    (user_id database_name filename : String) :
    Except String (TaskManager × Task × TaskResponse) :=
  let t := mkTask task_id user_id database_name sql export_format
    export_scope filename
  match m.add_task t with
  | .error e => .error e
  | .ok m' =>
      .ok (m', t,
        { taskId := task_id
          status := t.status
          progress := t.progress
          fileUrl := none
          error := none })

/-- `ExportService.get_task`: a snapshot of the registry record, with a
download URL only when COMPLETED. -/
def service_get_task (m : TaskManager) (task_id : String) :
    Option TaskResponse :=
  match m.get_task task_id with
  | none => none
  | some t =>
      some
        { taskId := t.task_id
          status := t.status
          progress := t.progress
          fileUrl :=
            if t.status = .completed then
              some ("/api/v1/exports/download/" ++ t.file_path)
            else none
          error := t.error }

/-! ### Invariants of the transition system -/

/-- Phases in which the writer's data query has not been issued: invariant
target for the fail-fast property. -/
def PreDataPhase (p : Phase) : Prop :=
  p = .scheduled ∨ p = .validating ∨ p = .finished

/-- Status/phase invariants maintained by every step: a finished runner has
a terminal status; COMPLETED and FAILED are written only by the runner's
final block; a FAILED task has no file. -/
def StatusPhaseInv (s : Sys) : Prop :=
  (s.phase = .finished → s.task.status.isTerminal = true) ∧
  ((s.task.status = .completed ∨ s.task.status = .failed) → s.phase = .finished) ∧
  (s.task.status = .failed → s.fileExists = false)

/-- Progress bookkeeping invariants: inside the row loop the published
progress is at most the floor that the already-written prefix allows, the
loop bound equals the progress divisor (adapters set
`row_count=len(rows)`), and before the loop progress is 0. -/
def ProgressInv (s : Sys) : Prop :=
  (∀ idx nrows rcount, s.phase = .writing idx nrows rcount →
      nrows = rcount ∧ idx ≤ nrows ∧ s.task.progress ≤ idx * 100 / rcount) ∧
  ((s.phase = .scheduled ∨ s.phase = .validating ∨ s.phase = .querying) →
      s.task.progress = 0)

/-- Overwrite the scope stored on a system's task (used to state that the
runner never reads `export_scope`). -/
def setScope (scope : ExportScope) (s : Sys) : Sys :=
  { s with task := { s.task with export_scope := scope } }

/-! ### Concrete fixtures for counterexamples and witnesses -/

def sqlT : String := "SELECT * FROM t"

def sqlBig : String := "SELECT * FROM big"

def sqlLim : String := "SELECT * FROM t LIMIT 50"

/-- An adapter whose full query counts 50 rows but whose 100-row sample
comes back empty. -/
def adapterC7 : Adapter := fun q =>
  if q = countSql sqlT then .ok ⟨["total"], [[("total", .vint 50)]], 1⟩
  else if q = sqlT ++ " LIMIT 100" then .ok ⟨["a"], [], 0⟩
  else .error "unexpected query"

/-- An adapter whose 100-row sample returns two single-column rows. -/
def adapterC7b : Adapter := fun q =>
  if q = countSql sqlT then .ok ⟨["total"], [[("total", .vint 50)]], 1⟩
  else if q = sqlT ++ " LIMIT 100" then
    .ok ⟨["a"], [[("a", .vstr "hello")], [("a", .vstr "world")]], 2⟩
  else .error "unexpected query"

/-- An adapter counting 1,572,864 rows: at 100 bytes per CSV row the
metadata estimate is 150 MB, over the 100 MB default limit. -/
def adapter150 : Adapter := fun q =>
  if q = countSql sqlBig then .ok ⟨["total"], [[("total", .vint 1572864)]], 1⟩
  else .error "unexpected query"

/-- A fresh registry with the default per-user limit of 3. -/
def tmEmpty : TaskManager := ⟨[], 3⟩

/-- An adapter with one small row, passing the size check. -/
def adapterSmall : Adapter := fun q =>
  if q = countSql sqlT then .ok ⟨["total"], [[("total", .vint 1)]], 1⟩
  else if q = sqlT then .ok ⟨["a"], [[("a", .vint 7)]], 1⟩
  else .error "unexpected query"

/-- An adapter whose data query returns zero rows. -/
def adapterEmptyRows : Adapter := fun q =>
  if q = countSql sqlT then .ok ⟨["total"], [[("total", .vint 0)]], 1⟩
  else if q = sqlT then .ok ⟨["a"], [], 0⟩
  else .error "unexpected query"

/-- An adapter for the query carrying a caller `LIMIT 50`. -/
def adapterLim : Adapter := fun q =>
  if q = countSql sqlLim then .ok ⟨["total"], [[("total", .vint 1)]], 1⟩
  else if q = sqlLim then .ok ⟨["a"], [[("a", .vint 7)]], 1⟩
  else .error "unexpected query"

def ctxSmall : RunCtx := ⟨adapterSmall, sqlT, .csv, 104857600⟩

def ctxEmpty : RunCtx := ⟨adapterEmptyRows, sqlT, .csv, 104857600⟩

def ctxBig : RunCtx := ⟨adapter150, sqlBig, .csv, 104857600⟩

def ctxLim : RunCtx := ⟨adapterLim, sqlLim, .csv, 104857600⟩

def t0 : Task := mkTask "tid-1" "alice" "db1" sqlT .csv .all_data "export-1.csv"

def taskBig : Task := mkTask "tid-1" "alice" "db1" sqlBig .csv .all_data "export-1.csv"

def tmBig : TaskManager := ⟨[("tid-1", taskBig)], 3⟩

/-- The current-page variant of the limited-query task. -/
def tCP : Task := mkTask "tid-1" "alice" "db1" sqlLim .csv .current_page "export-1.csv"

/-- The all-data variant, differing from `tCP` only in `export_scope`. -/
def tAD : Task := mkTask "tid-1" "alice" "db1" sqlLim .csv .all_data "export-1.csv"

/-- A registry holding three active (PENDING) tasks of user `alice`, at the
default limit 3. -/
def tmFull : TaskManager :=
  ⟨[("a1", mkTask "a1" "alice" "db1" sqlT .csv .all_data "f1.csv"),
    ("a2", mkTask "a2" "alice" "db1" sqlT .csv .all_data "f2.csv"),
    ("a3", mkTask "a3" "alice" "db1" sqlT .csv .all_data "f3.csv")], 3⟩

/-- A fourth task of the same user. -/
def tNew : Task := mkTask "a4" "alice" "db1" sqlT .csv .all_data "f4.csv"

/-! ### Helper lemmas -/

theorem exceptOkBind {α β ε : Type} (a : α) (f : α → Except ε β) :
    (Except.ok (ε := ε) a >>= f) = f a := rfl

/-- For CSV the sample measure adds `len(csv_row_list)` per row, so the
whole measure is the number of rows times the number of columns —
independent of the cell contents. -/
theorem sampleBytes_csv (cols : List String) (rows : List Row) :
    sampleBytes .csv cols rows = .ok (rows.length * cols.length) := by
  induction rows with
  | nil => simp [sampleBytes]
  | cons r rest ih =>
      simp only [sampleBytes, sampleRowMeasure, generate_csv_row,
        List.length_map, ih, List.length_cons]
      rw [show (rest.length + 1) * cols.length =
        cols.length + rest.length * cols.length by ring]
      rfl

theorem dictGet_updateEntries_ne (l : List (String × Task)) (id id2 : String)
    (u : TaskUpdate) (h : id2 ≠ id) :
    dictGet (updateEntries l id u) id2 = dictGet l id2 := by
  induction l with
  | nil => rfl
  | cons p rest ih =>
      obtain ⟨k, v⟩ := p
      by_cases hk : k = id
      · subst hk
        simp only [updateEntries, if_pos rfl, dictGet, if_neg h]
        exact ih
      · by_cases h2 : id2 = k
        · subst h2
          simp [updateEntries, hk, dictGet]
        · simp only [updateEntries, if_neg hk, dictGet, if_neg h2]
          exact ih

theorem dictGet_updateEntries_self (l : List (String × Task)) (id : String)
    (u : TaskUpdate) :
    dictGet (updateEntries l id u) id = (dictGet l id).map (applyUpdate · u) := by
  induction l with
  | nil => rfl
  | cons p rest ih =>
      obtain ⟨k, v⟩ := p
      by_cases hk : k = id
      · subst hk
        simp [updateEntries, dictGet]
      · simp only [updateEntries, if_neg hk, dictGet, if_neg (Ne.symm hk)]
        exact ih

theorem dictGet_dictInsert_self (l : List (String × Task)) (key : String)
    (t : Task) :
    dictGet (dictInsert l key t) key = some t := by
  induction l with
  | nil => simp [dictInsert, dictGet]
  | cons p rest ih =>
      obtain ⟨k, v⟩ := p
      by_cases hk : k = key
      · subst hk
        simp [dictInsert, dictGet]
      · simp only [dictInsert, if_neg hk, dictGet, if_neg (Ne.symm hk)]
        exact ih

theorem updateEntries_not_mem (l : List (String × Task)) (id : String)
    (u : TaskUpdate) (h : id ∉ l.map Prod.fst) : updateEntries l id u = l := by
  induction l with
  | nil => rfl
  | cons p rest ih =>
      obtain ⟨k, v⟩ := p
      simp only [List.map_cons, List.mem_cons] at h
      push_neg at h
      simp only [updateEntries, if_neg (Ne.symm h.1)]
      rw [ih h.2]

/-- Marking one active task of a user terminal decrements that user's
active count by exactly one (keys are unique, as in a Python dict). -/
theorem active_count_updateEntries (l : List (String × Task)) (id : String)
    (t0 : Task) (u : TaskUpdate) (uid : String)
    (hnd : (l.map Prod.fst).Nodup)
    (hl : dictGet l id = some t0)
    (huser : t0.user_id = uid) (hact : t0.status.isActive = true)
    (hterm : ∀ t : Task, ((applyUpdate t u).status.isActive) = false) :
    (updateEntries l id u).countP
        (fun p => decide (p.2.user_id = uid ∧ p.2.status.isActive = true)) + 1 =
      l.countP (fun p => decide (p.2.user_id = uid ∧ p.2.status.isActive = true)) := by
  induction l with
  | nil => simp [dictGet] at hl
  | cons p rest ih =>
      obtain ⟨k, v⟩ := p
      simp only [List.map_cons, List.nodup_cons] at hnd
      by_cases hk : k = id
      · subst hk
        have hv : v = t0 := by simpa [dictGet] using hl
        subst hv
        rw [show updateEntries ((k, v) :: rest) k u =
            (k, applyUpdate v u) :: rest from by
          simp [updateEntries, updateEntries_not_mem rest k u hnd.1]]
        rw [List.countP_cons, List.countP_cons]
        have h1 : (decide ((applyUpdate v u).user_id = uid ∧
            (applyUpdate v u).status.isActive = true)) = false :=
          decide_eq_false (fun hcon => absurd hcon.2 (by simp [hterm v]))
        have h2 : (decide (v.user_id = uid ∧ v.status.isActive = true)) = true :=
          decide_eq_true ⟨huser, hact⟩
        rw [h1, h2]
        simp
      · simp only [dictGet, if_neg (Ne.symm hk)] at hl
        simp only [updateEntries, if_neg hk]
        rw [List.countP_cons, List.countP_cons]
        have := ih hnd.2 hl
        omega

/-! ### Claim C6 — decimal serialization -/

/-- C6 (counterexample): for the decimal `0.1`, the CSV/Markdown value
serializer does return the canonical string, but the JSON value serializer
returns `float(Decimal("0.1"))` — a JSON number, not a string — so the
claim that the JSON serializer also emits the decimal as a string (never
converting to a binary float) is false. -/
theorem C6_counterexample :
    serialize_value (.vdecimal "0.1") = "0.1" ∧
    serialize_for_json (.vdecimal "0.1") = .jfloatOfDecimal "0.1" ∧
    (serialize_for_json (.vdecimal "0.1")).isStr = false := by
  decide

/-- C6 (amended): for every fixed-point decimal, the CSV and Markdown
serializers emit the decimal's exact canonical string representation
(`str(value)`), while the JSON serializer converts it with `float(value)`
to a binary floating-point JSON number — never a string — so precision can
be lost in JSON but not in CSV/Markdown. -/
theorem C6_amended (c : String) :
    serialize_value (.vdecimal c) = c ∧
    serialize_for_json (.vdecimal c) = .jfloatOfDecimal c ∧
    (serialize_for_json (.vdecimal c)).isStr = false :=
  ⟨rfl, rfl, rfl⟩

/-! ### Claim C7 — sampling estimator -/

/-- C7 (counterexample): with an empty sample and JSON target, the sampling
estimator falls back to `bytes_per_row = 100`, while the metadata strategy's
per-row constant for JSON is 150 — the fallback is not the metadata
constant for the target format. -/
theorem C7_counterexample :
    estimate_by_sampling adapterC7 sqlT .json 100 =
      .ok ⟨5000, 100, "sample", "medium", some 0⟩ ∧
    estimate_by_metadata adapterC7 sqlT .json =
      .ok ⟨7500, 150, "metadata", "low", none⟩ ∧
    ((100 : Int) ≠ (avg_row_sizes ExportFormat.json : Int)) :=
  ⟨rfl, rfl, by decide⟩

/-- C7 (amended): the sampling estimator computes `bytes_per_row` as the
sample measure floor-divided by the sampled-row count and multiplies it by
the separately counted full row count; but the measure is not a serialized
byte length: for CSV it is the length of the field *list* (one per column,
independent of cell contents), for JSON/Markdown the *character* length of
the row string; and an empty sample falls back to the constant 100 for
every format (which matches the metadata constant only for CSV). -/
theorem C7_amended (adapter : Adapter) (sql : String) (fmt : ExportFormat)
    (n : Nat) (res countRes : QueryResult) (total : Int) (B : Nat)
    (cols : List String) (rows : List Row)
    (hs : adapter (sql ++ " LIMIT " ++ toString n) = .ok res)
    (hB : sampleBytes fmt res.columns res.rows = .ok B)
    (hc : adapter (countSql sql) = .ok countRes)
    (ht : getTotal countRes = .ok total) :
    estimate_by_sampling adapter sql fmt n =
      .ok { estimated_bytes :=
              total * ((if res.row_count > 0 then B / res.row_count else 100 : Nat) : Int)
            bytes_per_row :=
              ((if res.row_count > 0 then B / res.row_count else 100 : Nat) : Int)
            method := "sample"
            confidence := "medium"
            sample_size := some res.row_count } ∧
    sampleBytes .csv cols rows = .ok (rows.length * cols.length) := by
  constructor
  · simp only [estimate_by_sampling, hs, exceptOkBind, hB, hc, ht]
  · exact sampleBytes_csv cols rows

/-- C7 witness: the amended statement evaluated on a two-row single-column
CSV sample (measure 2, `bytes_per_row = 1`) with a full count of 50. -/
theorem C7_witness :
    estimate_by_sampling adapterC7b sqlT .csv 100 =
      .ok { estimated_bytes :=
              (50 : Int) * (((if (2 : Nat) > 0 then 2 / 2 else 100 : Nat)) : Int)
            bytes_per_row := (((if (2 : Nat) > 0 then 2 / 2 else 100 : Nat)) : Int)
            method := "sample"
            confidence := "medium"
            sample_size := some 2 } ∧
    sampleBytes .csv ["a"]
        [[("a", .vstr "hello")], [("a", .vstr "world")]] = .ok (2 * 1) :=
  C7_amended adapterC7b sqlT .csv 100
    ⟨["a"], [[("a", .vstr "hello")], [("a", .vstr "world")]], 2⟩
    ⟨["total"], [[("total", .vint 50)]], 1⟩ 50 2
    ["a"] [[("a", .vstr "hello")], [("a", .vstr "world")]]
    (by rfl) (by rfl) (by rfl) (by rfl)

/-! ### Claim C10 — update_task frame conditions -/

/-- C10: `update_task` is a no-op for an unknown id; it leaves every other
task's binding untouched; the identified task becomes exactly
`applyUpdate t u`; `applyUpdate` never changes the identity fields or the
cancellation flag, changes each updatable field only when the argument is
non-`None`, and can never reset an already-set optional field to `None`. -/
theorem C10_update_task_frame (m : TaskManager) (id id2 : String)
    (u : TaskUpdate) (t : Task) :
    (m.get_task id = none → m.update_task id u = m) ∧
    (id2 ≠ id → (m.update_task id u).get_task id2 = m.get_task id2) ∧
    (m.get_task id = some t →
      (m.update_task id u).get_task id = some (applyUpdate t u)) ∧
    (applyUpdate t u).task_id = t.task_id ∧
    (applyUpdate t u).user_id = t.user_id ∧
    (applyUpdate t u).sql = t.sql ∧
    (applyUpdate t u).export_format = t.export_format ∧
    (applyUpdate t u).export_scope = t.export_scope ∧
    (applyUpdate t u).file_path = t.file_path ∧
    (applyUpdate t u).cancel_requested = t.cancel_requested ∧
    (u.status = none → (applyUpdate t u).status = t.status) ∧
    (u.progress = none → (applyUpdate t u).progress = t.progress) ∧
    (u.error = none → (applyUpdate t u).error = t.error) ∧
    (u.file_size_bytes = none →
      (applyUpdate t u).file_size_bytes = t.file_size_bytes) ∧
    (u.row_count = none → (applyUpdate t u).row_count = t.row_count) ∧
    (u.started_at = none → (applyUpdate t u).started_at = t.started_at) ∧
    (u.completed_at = none → (applyUpdate t u).completed_at = t.completed_at) ∧
    (u.execution_time_ms = none →
      (applyUpdate t u).execution_time_ms = t.execution_time_ms) ∧
    (t.error ≠ none → (applyUpdate t u).error ≠ none) ∧
    (t.file_size_bytes ≠ none → (applyUpdate t u).file_size_bytes ≠ none) ∧
    (t.row_count ≠ none → (applyUpdate t u).row_count ≠ none) ∧
    (t.started_at ≠ none → (applyUpdate t u).started_at ≠ none) ∧
    (t.completed_at ≠ none → (applyUpdate t u).completed_at ≠ none) ∧
    (t.execution_time_ms ≠ none → (applyUpdate t u).execution_time_ms ≠ none) := by
  refine ⟨?_, ?_, ?_, rfl, rfl, rfl, rfl, rfl, rfl, rfl,
    ?_, ?_, ?_, ?_, ?_, ?_, ?_, ?_, ?_, ?_, ?_, ?_, ?_, ?_⟩
  · intro h
    simp only [TaskManager.get_task] at h
    simp [TaskManager.update_task, h]
  · intro h
    simp only [TaskManager.get_task, TaskManager.update_task]
    cases hg : dictGet m.tasks id
    · rfl
    · exact dictGet_updateEntries_ne m.tasks id id2 u h
  · intro h
    simp only [TaskManager.get_task] at h
    simp only [TaskManager.get_task, TaskManager.update_task, h]
    rw [dictGet_updateEntries_self, h]
    rfl
  · intro h; simp [applyUpdate, h]
  · intro h; simp [applyUpdate, h]
  · intro h; simp [applyUpdate, h]
  · intro h; simp [applyUpdate, h]
  · intro h; simp [applyUpdate, h]
  · intro h; simp [applyUpdate, h]
  · intro h; simp [applyUpdate, h]
  · intro h; simp [applyUpdate, h]
  · intro h
    cases hu : u.error <;> simp [applyUpdate, hu]
    exact h
  · intro h
    cases hu : u.file_size_bytes <;> simp [applyUpdate, hu]
    exact h
  · intro h
    cases hu : u.row_count <;> simp [applyUpdate, hu]
    exact h
  · intro h
    cases hu : u.started_at <;> simp [applyUpdate, hu]
    exact h
  · intro h
    cases hu : u.completed_at <;> simp [applyUpdate, hu]
    exact h
  · intro h
    cases hu : u.execution_time_ms <;> simp [applyUpdate, hu]
    exact h

/-- C10 witness: the frame conditions evaluated on the concrete registry
`tmFull`. -/
theorem C10_witness :
    (tmFull.update_task "zzz" (terminalUpdate .completed) = tmFull) ∧
    ((tmFull.update_task "a2" (terminalUpdate .completed)).get_task "a1" =
      tmFull.get_task "a1") ∧
    ((tmFull.update_task "a2" (terminalUpdate .completed)).get_task "a2" =
      some (applyUpdate (mkTask "a2" "alice" "db1" sqlT .csv .all_data "f2.csv")
        (terminalUpdate .completed))) := by
  refine ⟨?_, ?_, ?_⟩
  · exact (C10_update_task_frame tmFull "zzz" "x" (terminalUpdate .completed)
      t0).1 (by decide)
  · exact (C10_update_task_frame tmFull "a2" "a1" (terminalUpdate .completed)
      t0).2.1 (by decide)
  · exact (C10_update_task_frame tmFull "a2" "x" (terminalUpdate .completed)
      (mkTask "a2" "alice" "db1" sqlT .csv .all_data "f2.csv")).2.2.1 (by decide)

/-! ### Claim C4 — per-user concurrency limit -/

/-- C4: when a user's active (PENDING/RUNNING) count has reached the
configured limit, `add_task` raises `ConcurrentTaskLimitError` and never
returns a registry containing the task; under the limit the insert succeeds
and the task is visible; after one of the user's active tasks is marked
terminal, the next add succeeds; the configured default limit is 3.  The
count-check and insert are a single transition (`add_task` has no `await`
between them, so the region is atomic under the event loop). -/
theorem C4_concurrent_limit (m : TaskManager) (t : Task) (id0 : String)
    (t0 : Task) (st : TaskStatus) :
    (m.get_active_task_count t.user_id ≥ m.max_concurrent_per_user →
      m.add_task t = .error ("Maximum " ++ toString m.max_concurrent_per_user ++
          " concurrent export tasks per user allowed") ∧
      ∀ m2 : TaskManager, m.add_task t ≠ .ok m2) ∧
    (m.get_active_task_count t.user_id < m.max_concurrent_per_user →
      ∃ m2, m.add_task t = .ok m2 ∧ m2.get_task t.task_id = some t) ∧
    ((m.tasks.map Prod.fst).Nodup →
      m.get_task id0 = some t0 →
      t0.user_id = t.user_id →
      t0.status.isActive = true →
      st.isActive = false →
      m.get_active_task_count t.user_id = m.max_concurrent_per_user →
      ∃ m2, (m.update_task id0 (terminalUpdate st)).add_task t = .ok m2 ∧
        m2.get_task t.task_id = some t) ∧
    defaultSettings.export_max_concurrent_per_user = 3 := by
  refine ⟨?_, ?_, ?_, rfl⟩
  · intro h
    constructor
    · simp [TaskManager.add_task, h]
    · intro m2
      simp [TaskManager.add_task, h]
  · intro h
    refine ⟨{ m with tasks := dictInsert m.tasks t.task_id t }, ?_, ?_⟩
    · simp [TaskManager.add_task, Nat.not_le.mpr h]
    · simp only [TaskManager.get_task]
      exact dictGet_dictInsert_self m.tasks t.task_id t
  · intro hnd hget hu ha hst hcount
    have hterm : ∀ tt : Task,
        ((applyUpdate tt (terminalUpdate st)).status.isActive) = false := by
      intro tt
      simp only [applyUpdate, terminalUpdate, TaskUpdate.empty]
      exact hst
    have hdec := active_count_updateEntries m.tasks id0 t0
      (terminalUpdate st) t.user_id hnd hget hu ha hterm
    have hup : m.update_task id0 (terminalUpdate st) =
        { m with tasks := updateEntries m.tasks id0 (terminalUpdate st) } := by
      simp only [TaskManager.get_task] at hget
      simp [TaskManager.update_task, hget]
    rw [hup]
    have hlt : TaskManager.get_active_task_count
        { m with tasks := updateEntries m.tasks id0 (terminalUpdate st) }
        t.user_id < m.max_concurrent_per_user := by
      have hgoal : TaskManager.get_active_task_count
          { m with tasks := updateEntries m.tasks id0 (terminalUpdate st) }
          t.user_id =
          (updateEntries m.tasks id0 (terminalUpdate st)).countP
            (fun p => decide (p.2.user_id = t.user_id ∧
              p.2.status.isActive = true)) := rfl
      have hc2 : m.get_active_task_count t.user_id =
          m.tasks.countP (fun p => decide (p.2.user_id = t.user_id ∧
            p.2.status.isActive = true)) := rfl
      rw [hgoal]
      rw [hc2] at hcount
      omega
    refine ⟨{ m with
        tasks := dictInsert (updateEntries m.tasks id0 (terminalUpdate st))
            t.task_id t },
      ?_, ?_⟩
    · simp [TaskManager.add_task, Nat.not_le.mpr hlt]
    · simp only [TaskManager.get_task]
      exact dictGet_dictInsert_self _ t.task_id t

/-- C4 witness: `alice` holds three PENDING tasks at limit 3, so a fourth
add fails; marking one COMPLETED lets the next add succeed and become
visible. -/
theorem C4_witness :
    tmFull.add_task tNew =
      .error ("Maximum " ++ toString tmFull.max_concurrent_per_user ++
        " concurrent export tasks per user allowed") ∧
    (∃ m2, (tmFull.update_task "a2" (terminalUpdate .completed)).add_task tNew =
        .ok m2 ∧ m2.get_task "a4" = some tNew) := by
  constructor
  · exact ((C4_concurrent_limit tmFull tNew "a2" t0 .completed).1 (by decide)).1
  · exact (C4_concurrent_limit tmFull tNew "a2"
      (mkTask "a2" "alice" "db1" sqlT .csv .all_data "f2.csv") .completed).2.2.1
      (by decide) (by decide) (by decide) (by decide) (by decide) (by decide)

/-! ### Invariant lemmas for the transition system -/

theorem statusPhaseInv_failStep (s : Sys) (msg : String) :
    StatusPhaseInv (failStep s msg) := by
  refine ⟨fun _ => ?_, fun _ => rfl, fun _ => rfl⟩
  simp [failStep, applyUpdate, TaskUpdate.empty, TaskStatus.isTerminal,
    TaskStatus.isActive]

theorem statusPhaseInv_step (ctx : RunCtx) (ev : Ev) (s : Sys)
    (h : StatusPhaseInv s) : StatusPhaseInv (step ctx ev s) := by
  obtain ⟨tk, fe, ph, ck, rs, dq⟩ := s
  obtain ⟨h1, h2, h3⟩ := h
  cases ev
  case runnerStart =>
    cases ph <;> simp only [step]
    case scheduled =>
      refine ⟨fun hfin => by simp at hfin, fun hcf => ?_, fun hf => ?_⟩
      · simp [applyUpdate, TaskUpdate.empty] at hcf
      · simp [applyUpdate, TaskUpdate.empty] at hf
    all_goals exact ⟨h1, h2, h3⟩
  case runnerValidate =>
    cases ph <;> simp only [step]
    case validating =>
      cases hest : estimate_by_metadata ctx.adapter ctx.sql ctx.export_format
      case error => exact statusPhaseInv_failStep _ _
      case ok est =>
        by_cases hover : est.estimated_bytes > (ctx.max_file_size_bytes : Int)
        · simp only [if_pos hover]
          exact statusPhaseInv_failStep _ _
        · simp only [if_neg hover]
          refine ⟨fun hfin => by simp at hfin, fun hcf => ?_, fun hf => h3 hf⟩
          have := h2 hcf
          simp at this
    all_goals exact ⟨h1, h2, h3⟩
  case runnerQuery =>
    cases ph <;> simp only [step]
    case querying =>
      cases hq : ctx.adapter ctx.sql
      case error => exact statusPhaseInv_failStep _ _
      case ok res =>
        refine ⟨fun hfin => by simp at hfin, fun hcf => ?_, fun hf => ?_⟩
        · have := h2 hcf
          simp at this
        · have := h2 (Or.inr hf)
          simp at this
    all_goals exact ⟨h1, h2, h3⟩
  case runnerTimeout =>
    cases ph <;> simp only [step]
    case querying => exact statusPhaseInv_failStep _ _
    all_goals exact ⟨h1, h2, h3⟩
  case runnerWriteRow =>
    cases ph <;> simp only [step]
    case writing idx nrows rcount =>
      by_cases hlt : idx < nrows
      · simp only [if_pos hlt]
        by_cases hcan : tk.cancel_requested
        · simp only [hcan, if_pos rfl]
          refine ⟨fun _ => ?_, fun hcf => ?_, fun hf => ?_⟩
          · simp [applyUpdate, TaskUpdate.empty, TaskStatus.isTerminal,
              TaskStatus.isActive]
          · simp [applyUpdate, TaskUpdate.empty] at hcf
          · simp [applyUpdate, TaskUpdate.empty] at hf
        · simp only [hcan, Bool.false_eq_true, if_neg, if_false]
          refine ⟨fun hfin => by simp at hfin, fun hcf => ?_, fun hf => ?_⟩
          · by_cases hb : (idx + 1) % 1000 = 0
            · simp only [if_pos hb] at hcf
              simp only [applyUpdate, TaskUpdate.empty] at hcf
              have := h2 hcf
              simp at this
            · simp only [if_neg hb] at hcf
              have := h2 hcf
              simp at this
          · by_cases hb : (idx + 1) % 1000 = 0
            · simp only [if_pos hb] at hf
              simp only [applyUpdate, TaskUpdate.empty] at hf
              have := h2 (Or.inr hf)
              simp at this
            · simp only [if_neg hb] at hf
              have := h2 (Or.inr hf)
              simp at this
      · simp only [if_neg hlt]
        exact ⟨h1, h2, h3⟩
    all_goals exact ⟨h1, h2, h3⟩
  case runnerFinish =>
    cases ph <;> simp only [step]
    case writing idx nrows rcount =>
      by_cases hge : nrows ≤ idx
      · simp only [if_pos hge]
        by_cases hfe : fe
        · simp only [hfe, if_pos rfl]
          refine ⟨fun _ => ?_, fun _ => rfl, fun hf => ?_⟩
          · simp [applyUpdate, TaskUpdate.empty, TaskStatus.isTerminal,
              TaskStatus.isActive]
          · simp [applyUpdate, TaskUpdate.empty] at hf
        · simp only [hfe, Bool.false_eq_true, if_neg, if_false]
          exact statusPhaseInv_failStep _ _
      · simp only [if_neg hge]
        exact ⟨h1, h2, h3⟩
    all_goals exact ⟨h1, h2, h3⟩
  case cancelRequest =>
    by_cases hact : tk.status.isActive
    · simp only [step, hact, if_pos rfl]
      refine ⟨fun _ => ?_, fun hcf => ?_, fun hf => ?_⟩
      · simp [applyUpdate, TaskUpdate.empty, TaskStatus.isTerminal,
          TaskStatus.isActive]
      · simp [applyUpdate, TaskUpdate.empty] at hcf
      · simp [applyUpdate, TaskUpdate.empty] at hf
    · simp only [step, hact, Bool.false_eq_true, if_neg, if_false]
      exact ⟨h1, h2, h3⟩

theorem statusPhaseInv_run (ctx : RunCtx) (tr : List Ev) (s : Sys)
    (h : StatusPhaseInv s) : StatusPhaseInv (run ctx tr s) := by
  induction tr generalizing s with
  | nil => exact h
  | cons e tr ih => exact ih (step ctx e s) (statusPhaseInv_step ctx e s h)

theorem statusPhaseInv_init (t : Task) (h : t.status = .pending) :
    StatusPhaseInv (initSys t) := by
  refine ⟨fun hfin => by simp [initSys] at hfin, fun hcf => ?_, fun hf => ?_⟩
  · simp only [initSys] at hcf
    rw [h] at hcf
    simp at hcf
  · simp only [initSys] at hf
    rw [h] at hf
    simp at hf

/-- Once a reachable state has status COMPLETED or FAILED, no further step
changes its task record or its file. -/
theorem step_preserves_final (ctx : RunCtx) (ev : Ev) (s : Sys)
    (hinv : StatusPhaseInv s)
    (hterm : s.task.status = .completed ∨ s.task.status = .failed) :
    (step ctx ev s).task = s.task ∧ (step ctx ev s).fileExists = s.fileExists := by
  have hfin : s.phase = .finished := hinv.2.1 hterm
  have hact : s.task.status.isActive = false := by
    rcases hterm with h | h <;> rw [h] <;> rfl
  cases ev <;> simp only [step, hfin]
  case cancelRequest =>
    simp only [hact, Bool.false_eq_true, if_neg, if_false]
    exact ⟨trivial, trivial⟩
  all_goals exact ⟨trivial, trivial⟩

/-- When the metadata estimate exceeds the limit, no step issues a
real-data query or enters a data phase. -/
theorem noDataInv_step (ctx : RunCtx) (est : SizeEstimate)
    (hest : estimate_by_metadata ctx.adapter ctx.sql ctx.export_format = .ok est)
    (hover : est.estimated_bytes > (ctx.max_file_size_bytes : Int))
    (ev : Ev) (s : Sys) (h : s.dataQueries = [] ∧ PreDataPhase s.phase) :
    (step ctx ev s).dataQueries = [] ∧ PreDataPhase (step ctx ev s).phase := by
  obtain ⟨tk, fe, ph, ck, rs, dq⟩ := s
  obtain ⟨hd, hph⟩ := h
  simp only at hd
  subst hd
  cases ev
  case runnerStart =>
    cases ph <;> simp only [step]
    case scheduled => exact ⟨by trivial, Or.inr (Or.inl rfl)⟩
    all_goals exact ⟨by trivial, hph⟩
  case runnerValidate =>
    cases ph <;> simp only [step]
    case validating =>
      simp only [hest, if_pos hover]
      exact ⟨by trivial, Or.inr (Or.inr rfl)⟩
    all_goals exact ⟨by trivial, hph⟩
  case runnerQuery =>
    cases ph <;> simp only [step]
    case querying => exact absurd hph (by simp [PreDataPhase])
    all_goals exact ⟨by trivial, hph⟩
  case runnerTimeout =>
    cases ph <;> simp only [step]
    case querying => exact absurd hph (by simp [PreDataPhase])
    all_goals exact ⟨by trivial, hph⟩
  case runnerWriteRow =>
    cases ph <;> simp only [step]
    case writing idx nrows rcount => exact absurd hph (by simp [PreDataPhase])
    all_goals exact ⟨by trivial, hph⟩
  case runnerFinish =>
    cases ph <;> simp only [step]
    case writing idx nrows rcount => exact absurd hph (by simp [PreDataPhase])
    all_goals exact ⟨by trivial, hph⟩
  case cancelRequest =>
    by_cases hact : tk.status.isActive
    · simp only [step, hact, if_pos rfl]
      exact ⟨by trivial, hph⟩
    · simp only [step, hact, Bool.false_eq_true, if_neg, if_false]
      exact ⟨by trivial, hph⟩

/-- No step of the runner or of `cancel_task` reads the task's
`export_scope`: every step commutes with overwriting it. -/
theorem step_setScope (ctx : RunCtx) (ev : Ev) (scope : ExportScope) (s : Sys) :
    step ctx ev (setScope scope s) = setScope scope (step ctx ev s) := by
  obtain ⟨tk, fe, ph, ck, rs, dq⟩ := s
  cases ev <;> cases ph <;>
    simp only [step, setScope] <;>
    (repeat' split) <;> rfl

theorem run_setScope (ctx : RunCtx) (tr : List Ev) (scope : ExportScope)
    (s : Sys) :
    run ctx tr (setScope scope s) = setScope scope (run ctx tr s) := by
  induction tr generalizing s with
  | nil => rfl
  | cons e tr ih =>
      show run ctx tr (step ctx e (setScope scope s)) = _
      rw [step_setScope]
      exact ih (step ctx e s)

theorem progressInv_failStep (s : Sys) (msg : String) :
    ProgressInv (failStep s msg) := by
  constructor
  · intro i n r hp
    simp [failStep] at hp
  · intro h
    rcases h with h | h | h <;> simp [failStep] at h

theorem progressInv_step (ctx : RunCtx) (hA : AdapterOk ctx.adapter) (ev : Ev)
    (s : Sys) (h : ProgressInv s) : ProgressInv (step ctx ev s) := by
  obtain ⟨tk, fe, ph, ck, rs, dq⟩ := s
  obtain ⟨h1, h2⟩ := h
  cases ev
  case runnerStart =>
    cases ph <;> simp only [step]
    case scheduled =>
      refine ⟨fun i n r hp => by simp at hp, fun _ => ?_⟩
      simp [applyUpdate, TaskUpdate.empty]
    all_goals exact ⟨h1, h2⟩
  case runnerValidate =>
    cases ph <;> simp only [step]
    case validating =>
      cases hest : estimate_by_metadata ctx.adapter ctx.sql ctx.export_format
      case error => exact progressInv_failStep _ _
      case ok est =>
        by_cases hover : est.estimated_bytes > (ctx.max_file_size_bytes : Int)
        · simp only [if_pos hover]
          exact progressInv_failStep _ _
        · simp only [if_neg hover]
          exact ⟨fun i n r hp => by simp at hp,
            fun _ => h2 (Or.inr (Or.inl rfl))⟩
    all_goals exact ⟨h1, h2⟩
  case runnerQuery =>
    cases ph <;> simp only [step]
    case querying =>
      cases hq : ctx.adapter ctx.sql
      case error => exact progressInv_failStep _ _
      case ok res =>
        constructor
        · intro i n r hp
          simp only [Phase.writing.injEq] at hp
          obtain ⟨e1, e2, e3⟩ := hp
          subst e1; subst e2; subst e3
          refine ⟨(hA ctx.sql res hq).symm, Nat.zero_le _, ?_⟩
          have : tk.progress = 0 := h2 (Or.inr (Or.inr rfl))
          simp [this]
        · intro h3
          rcases h3 with h3 | h3 | h3 <;> simp at h3
    all_goals exact ⟨h1, h2⟩
  case runnerTimeout =>
    cases ph <;> simp only [step]
    case querying => exact progressInv_failStep _ _
    all_goals exact ⟨h1, h2⟩
  case runnerWriteRow =>
    cases ph <;> simp only [step]
    case writing idx nrows rcount =>
      by_cases hlt : idx < nrows
      · simp only [if_pos hlt]
        by_cases hcan : tk.cancel_requested
        · simp only [hcan, if_pos rfl]
          refine ⟨fun i n r hp => by simp at hp, fun h3 => ?_⟩
          rcases h3 with h3 | h3 | h3 <;> simp at h3
        · simp only [hcan, Bool.false_eq_true, if_false]
          obtain ⟨hnr, hle, hpr⟩ := h1 idx nrows rcount rfl
          constructor
          · intro i n r hp
            simp only [Phase.writing.injEq] at hp
            obtain ⟨e1, e2, e3⟩ := hp
            subst e1; subst e2; subst e3
            refine ⟨hnr, by omega, ?_⟩
            by_cases hb : (idx + 1) % 1000 = 0
            · simp [hb, applyUpdate, TaskUpdate.empty]
            · simp only [hb, if_neg, if_false]
              calc tk.progress ≤ idx * 100 / rcount := hpr
                _ ≤ (idx + 1) * 100 / rcount :=
                    Nat.div_le_div_right
                      (Nat.mul_le_mul_right _ (Nat.le_succ idx))
          · intro h3
            rcases h3 with h3 | h3 | h3 <;> simp at h3
      · simp only [if_neg hlt]
        exact ⟨h1, h2⟩
    all_goals exact ⟨h1, h2⟩
  case runnerFinish =>
    cases ph <;> simp only [step]
    case writing idx nrows rcount =>
      by_cases hge : nrows ≤ idx
      · simp only [if_pos hge]
        by_cases hfe : fe
        · simp only [hfe, if_pos rfl]
          refine ⟨fun i n r hp => by simp at hp, fun h3 => ?_⟩
          rcases h3 with h3 | h3 | h3 <;> simp at h3
        · simp only [hfe, Bool.false_eq_true, if_false]
          exact progressInv_failStep _ _
      · simp only [if_neg hge]
        exact ⟨h1, h2⟩
    all_goals exact ⟨h1, h2⟩
  case cancelRequest =>
    by_cases hact : tk.status.isActive
    · simp only [step, hact, if_pos rfl]
      constructor
      · intro i n r hp
        obtain ⟨hnr, hle, hpr⟩ := h1 i n r hp
        refine ⟨hnr, hle, ?_⟩
        simpa [applyUpdate, TaskUpdate.empty] using hpr
      · intro h3
        have := h2 h3
        simpa [applyUpdate, TaskUpdate.empty] using this
    · simp only [step, hact, Bool.false_eq_true, if_false]
      exact ⟨h1, h2⟩

/-- One step never decreases the task's published progress. -/
theorem progress_mono_step (ctx : RunCtx) (ev : Ev) (s : Sys)
    (h : ProgressInv s) :
    s.task.progress ≤ (step ctx ev s).task.progress := by
  obtain ⟨tk, fe, ph, ck, rs, dq⟩ := s
  obtain ⟨h1, h2⟩ := h
  cases ev
  case runnerStart =>
    cases ph <;> simp only [step] <;> try exact Nat.le_refl _
    case scheduled =>
      have h0 : tk.progress = 0 := h2 (Or.inl rfl)
      simp [applyUpdate, TaskUpdate.empty, h0]
  case runnerValidate =>
    cases ph <;> simp only [step] <;> try exact Nat.le_refl _
    case validating =>
      cases hest : estimate_by_metadata ctx.adapter ctx.sql ctx.export_format
      case error => simp [failStep, applyUpdate, TaskUpdate.empty]
      case ok est =>
        by_cases hover : est.estimated_bytes > (ctx.max_file_size_bytes : Int)
        · simp [if_pos hover, failStep, applyUpdate, TaskUpdate.empty]
        · simp [if_neg hover]
  case runnerQuery =>
    cases ph <;> simp only [step] <;> try exact Nat.le_refl _
    case querying =>
      cases hq : ctx.adapter ctx.sql
      case error => simp [failStep, applyUpdate, TaskUpdate.empty]
      case ok res => exact Nat.le_refl _
  case runnerTimeout =>
    cases ph <;> simp only [step] <;> exact Nat.le_refl _
  case runnerWriteRow =>
    cases ph <;> simp only [step] <;> try exact Nat.le_refl _
    case writing idx nrows rcount =>
      by_cases hlt : idx < nrows
      · simp only [if_pos hlt]
        by_cases hcan : tk.cancel_requested
        · simp [hcan, applyUpdate, TaskUpdate.empty]
        · simp only [hcan, Bool.false_eq_true, if_false]
          obtain ⟨hnr, hle, hpr⟩ := h1 idx nrows rcount rfl
          by_cases hb : (idx + 1) % 1000 = 0
          · simp only [hb, if_pos, if_true]
            calc tk.progress ≤ idx * 100 / rcount := hpr
              _ ≤ (idx + 1) * 100 / rcount :=
                  Nat.div_le_div_right
                    (Nat.mul_le_mul_right _ (Nat.le_succ idx))
          · simp [hb]
      · simp [if_neg hlt]
  case runnerFinish =>
    cases ph <;> simp only [step] <;> try exact Nat.le_refl _
    case writing idx nrows rcount =>
      by_cases hge : nrows ≤ idx
      · simp only [if_pos hge]
        by_cases hfe : fe
        · simp only [hfe, if_pos rfl]
          obtain ⟨hnr, hle, hpr⟩ := h1 idx nrows rcount rfl
          have h100 : idx * 100 / rcount ≤ 100 := by
            have heq : idx = rcount := by omega
            rcases Nat.eq_zero_or_pos rcount with hr | hr
            · rw [heq, hr]
              simp
            · rw [heq, Nat.mul_comm, Nat.mul_div_cancel _ hr]
          have : tk.progress ≤ 100 := Nat.le_trans hpr h100
          simpa [applyUpdate, TaskUpdate.empty] using this
        · simp only [hfe, Bool.false_eq_true, if_false]
          simp [failStep, applyUpdate, TaskUpdate.empty]
      · simp [if_neg hge]
  case cancelRequest =>
    by_cases hact : tk.status.isActive
    · simp only [step, hact, if_pos rfl]
      simp [applyUpdate, TaskUpdate.empty]
    · simp only [step, hact, Bool.false_eq_true, if_false]
      exact Nat.le_refl _

theorem progressInv_run (ctx : RunCtx) (hA : AdapterOk ctx.adapter)
    (tr : List Ev) (s : Sys) (h : ProgressInv s) :
    ProgressInv (run ctx tr s) := by
  induction tr generalizing s with
  | nil => exact h
  | cons e tr ih => exact ih (step ctx e s) (progressInv_step ctx hA e s h)

theorem progressInv_init (t : Task) (hp0 : t.progress = 0) :
    ProgressInv (initSys t) :=
  ⟨fun i n r hp => by simp [initSys] at hp, fun _ => hp0⟩

/-- The in-repo adapters' `row_count=len(rows)` contract, for the concrete
fixture adapter. -/
theorem adapterOk_adapterSmall : AdapterOk adapterSmall := by
  intro q r h
  simp only [adapterSmall] at h
  split at h
  · cases h
    rfl
  · split at h
    · cases h
      rfl
    · cases h

/-! ### Claim C1 — size check vs. task visibility -/

/-- C1 (counterexample): with a metadata estimate of 150 MB against the
100 MB limit, `execute_export` does not raise `FileSizeExceededError`
synchronously — it returns the PENDING response — and the task is
immediately observable via `get_task`: both the synchronous-raise and the
never-visible parts of the claim are false. -/
theorem C1_counterexample :
    estimate_by_metadata adapter150 sqlBig .csv =
      .ok ⟨157286400, 100, "metadata", "low", none⟩ ∧
    ((104857600 : Int) < 157286400) ∧
    execute_export tmEmpty "tid-1" sqlBig .csv .all_data "alice" "db1"
        "export-1.csv" =
      .ok (tmBig, taskBig, ⟨"tid-1", .pending, 0, none, none⟩) ∧
    service_get_task tmBig "tid-1" =
      some ⟨"tid-1", .pending, 0, none, none⟩ := by
  refine ⟨by rfl, by decide, by rfl, by rfl⟩

/-- C1 (amended): when the metadata-estimated size exceeds the configured
maximum, the size constraint is still checked before the query executor is
touched for real data — along every trace the run issues no data query and
never enters a data phase — but the failure is asynchronous: the registered
task transitions to FAILED with the `FileSizeExceededError` message (and no
file), and it remains observable via `get_task` rather than never existing. -/
theorem C1_amended (ctx : RunCtx) (t : Task) (tr : List Ev)
    (est : SizeEstimate)
    (hest : estimate_by_metadata ctx.adapter ctx.sql ctx.export_format = .ok est)
    (hover : est.estimated_bytes > (ctx.max_file_size_bytes : Int)) :
    ((run ctx tr (initSys t)).dataQueries = [] ∧
      PreDataPhase (run ctx tr (initSys t)).phase) ∧
    (run ctx [.runnerStart, .runnerValidate] (initSys t)).task.status =
      .failed ∧
    (run ctx [.runnerStart, .runnerValidate] (initSys t)).task.error =
      some fileSizeExceededMessage ∧
    (run ctx [.runnerStart, .runnerValidate] (initSys t)).fileExists = false := by
  refine ⟨?_, ?_, ?_, ?_⟩
  case _ =>
    suffices h : ∀ s : Sys, (s.dataQueries = [] ∧ PreDataPhase s.phase) →
        ((run ctx tr s).dataQueries = [] ∧ PreDataPhase (run ctx tr s).phase) by
      exact h (initSys t) ⟨rfl, Or.inl rfl⟩
    intro s hs
    induction tr generalizing s with
    | nil => exact hs
    | cons e tr ih =>
        exact ih (step ctx e s) (noDataInv_step ctx est hest hover e s hs)
  all_goals
    show _ = _
    rw [show run ctx [.runnerStart, .runnerValidate] (initSys t) =
      step ctx .runnerValidate (step ctx .runnerStart (initSys t)) from rfl]
    rw [show step ctx .runnerValidate (step ctx .runnerStart (initSys t)) =
      failStep (step ctx .runnerStart (initSys t)) fileSizeExceededMessage from by
        simp only [initSys, step, hest, if_pos hover]]
    simp [failStep, applyUpdate, TaskUpdate.empty]

/-- C1 witness: the amended statement evaluated on the concrete 150 MB
oversized run. -/
theorem C1_witness :
    (run ctxBig [.runnerStart, .runnerValidate]
        (initSys taskBig)).task.status = .failed ∧
    (run ctxBig [.runnerStart, .runnerValidate]
        (initSys taskBig)).task.error = some fileSizeExceededMessage ∧
    (run ctxBig [.runnerStart, .runnerValidate]
        (initSys taskBig)).dataQueries = [] := by
  have h := C1_amended ctxBig taskBig [.runnerStart, .runnerValidate]
    ⟨157286400, 100, "metadata", "low", none⟩ (by rfl) (by decide)
  exact ⟨h.2.1, h.2.2.1, (h.1).1⟩

/-! ### Claim C2 — stability of terminal states -/

/-- C2 (counterexample): a task cancelled while PENDING (terminal
CANCELLED, `completed_at` stamped) is set back to RUNNING by the runner's
unconditional start update; the runner's own cancellation transition then
stamps `completed_at` a second time with a different value; and for a
zero-row export the cancelled task even ends COMPLETED — so a terminal
status can change and the terminal transition is not unique. -/
theorem C2_counterexample :
    (run ctxSmall [.cancelRequest] (initSys t0)).task.status = .cancelled ∧
    (run ctxSmall [.cancelRequest] (initSys t0)).task.completed_at = some 0 ∧
    (run ctxSmall [.cancelRequest, .runnerStart] (initSys t0)).task.status =
      .running ∧
    (run ctxSmall [.cancelRequest, .runnerStart, .runnerValidate, .runnerQuery,
        .runnerWriteRow] (initSys t0)).task.status = .cancelled ∧
    (run ctxSmall [.cancelRequest, .runnerStart, .runnerValidate, .runnerQuery,
        .runnerWriteRow] (initSys t0)).task.completed_at = some 4 ∧
    (run ctxEmpty [.cancelRequest, .runnerStart, .runnerValidate, .runnerQuery,
        .runnerFinish] (initSys t0)).task.status = .completed := by
  refine ⟨by rfl, by rfl, by rfl, by rfl, by rfl, by rfl⟩

/-- C2 (amended): once a task reaches COMPLETED or FAILED — statuses only
the runner's final block writes — no subsequent operation changes its
record (status, `completed_at` or any other field) or its file, and
`cancel_task` never modifies a task whose status is already terminal; but a
CANCELLED status written by `cancel_task` while the runner is still active
is not stable: the runner may overwrite it with RUNNING and make its own
terminal transition later, re-stamping `completed_at`. -/
theorem C2_amended (ctx : RunCtx) (t : Task) (tr : List Ev) (ev : Ev)
    (s2 : Sys) (hpend : t.status = .pending) :
    (((run ctx tr (initSys t)).task.status = .completed ∨
        (run ctx tr (initSys t)).task.status = .failed) →
      (step ctx ev (run ctx tr (initSys t))).task =
          (run ctx tr (initSys t)).task ∧
      (step ctx ev (run ctx tr (initSys t))).fileExists =
          (run ctx tr (initSys t)).fileExists) ∧
    (s2.task.status.isTerminal = true →
      (step ctx .cancelRequest s2).task = s2.task ∧
      (step ctx .cancelRequest s2).fileExists = s2.fileExists) := by
  constructor
  · intro hterm
    exact step_preserves_final ctx ev (run ctx tr (initSys t))
      (statusPhaseInv_run ctx tr (initSys t) (statusPhaseInv_init t hpend)) hterm
  · intro hterm
    have hact : s2.task.status.isActive = false := by
      simpa [TaskStatus.isTerminal] using hterm
    simp only [step, hact, Bool.false_eq_true, if_neg, if_false]
    exact ⟨trivial, trivial⟩

/-- C2 witness: a completed zero-row run is untouched by a subsequent
`cancel_task`. -/
theorem C2_witness :
    (step ctxEmpty .cancelRequest
        (run ctxEmpty [.runnerStart, .runnerValidate, .runnerQuery,
          .runnerFinish] (initSys t0))).task =
      (run ctxEmpty [.runnerStart, .runnerValidate, .runnerQuery,
        .runnerFinish] (initSys t0)).task := by
  have h := (C2_amended ctxEmpty t0 [.runnerStart, .runnerValidate,
    .runnerQuery, .runnerFinish] .cancelRequest (initSys t0) (by rfl)).1
  exact (h (Or.inl (by rfl))).1

/-! ### Claim C3 — file cleanup on FAILED and CANCELLED -/

/-- C3 (counterexample): cancelling a PENDING task (no file yet, so
`cancel_task` deletes nothing), then letting the runner run, leaves the
runner's CancelledError handler — which does not delete the file — with a
freshly created partial file on disk: a CANCELLED task whose `file_path`
still holds a file. -/
theorem C3_counterexample :
    (run ctxSmall [.cancelRequest, .runnerStart, .runnerValidate, .runnerQuery,
        .runnerWriteRow] (initSys t0)).task.status = .cancelled ∧
    (run ctxSmall [.cancelRequest, .runnerStart, .runnerValidate, .runnerQuery,
        .runnerWriteRow] (initSys t0)).phase = .finished ∧
    (run ctxSmall [.cancelRequest, .runnerStart, .runnerValidate, .runnerQuery,
        .runnerWriteRow] (initSys t0)).fileExists = true := by
  refine ⟨by rfl, by rfl, by rfl⟩

/-- C3 (amended): every FAILED task has no file at its path (the failure
handler's deletion is unconditional), and `cancel_task` itself removes any
file present at cancellation time; but the runner's cancellation-observed
path performs no deletion, so a task cancelled before the writer opened its
file ends CANCELLED with a partial file still on disk. -/
theorem C3_amended (ctx : RunCtx) (t : Task) (tr : List Ev) (s2 : Sys)
    (hpend : t.status = .pending) :
    ((run ctx tr (initSys t)).task.status = .failed →
      (run ctx tr (initSys t)).fileExists = false) ∧
    (s2.task.status.isActive = true →
      (step ctx .cancelRequest s2).fileExists = false) := by
  constructor
  · intro hf
    exact (statusPhaseInv_run ctx tr (initSys t)
      (statusPhaseInv_init t hpend)).2.2 hf
  · intro hact
    simp [step, hact]

/-- C3 witness: a timed-out (FAILED) run has no file, and `cancel_task` on
an active task deletes the file. -/
theorem C3_witness :
    (run ctxSmall [.runnerStart, .runnerValidate, .runnerTimeout]
        (initSys t0)).fileExists = false ∧
    (step ctxSmall .cancelRequest (initSys t0)).fileExists = false := by
  constructor
  · exact (C3_amended ctxSmall t0 [.runnerStart, .runnerValidate,
      .runnerTimeout] (initSys t0) (by rfl)).1 (by rfl)
  · exact (C3_amended ctxSmall t0 [] (initSys t0) (by rfl)).2 (by rfl)

/-! ### Claim C5 — export_scope and query execution -/

/-- C5 (counterexample): for the SQL `SELECT * FROM t LIMIT 50`, which
carries a caller limit, the CURRENT_PAGE task and the ALL_DATA task issue
the identical data query — the SQL exactly as given — so the two scopes do
not execute different queries. -/
theorem C5_counterexample :
    (run ctxLim [.runnerStart, .runnerValidate, .runnerQuery]
        (initSys tCP)).dataQueries = [sqlLim] ∧
    (run ctxLim [.runnerStart, .runnerValidate, .runnerQuery]
        (initSys tAD)).dataQueries = [sqlLim] ∧
    tCP.export_scope ≠ tAD.export_scope ∧
    sqlLim = "SELECT * FROM t LIMIT 50" := by
  refine ⟨by rfl, by rfl, by decide, by rfl⟩

/-- C5 (amended): `export_scope` is stored immutably on the task but never
consulted during execution: no step changes it, and two runs whose tasks
differ only in scope are identical apart from that stored field — in
particular they send exactly the same data queries (the caller's SQL as
given, with no limit stripping for ALL_DATA). -/
theorem C5_amended (ctx : RunCtx) (tr : List Ev) (ev : Ev) (s : Sys)
    (scope1 scope2 : ExportScope) (tid uid db sql fp : String)
    (fmt : ExportFormat) :
    (step ctx ev s).task.export_scope = s.task.export_scope ∧
    run ctx tr (initSys (mkTask tid uid db sql fmt scope1 fp)) =
      setScope scope1
        (run ctx tr (initSys (mkTask tid uid db sql fmt scope2 fp))) ∧
    (run ctx tr (initSys (mkTask tid uid db sql fmt scope1 fp))).dataQueries =
      (run ctx tr (initSys (mkTask tid uid db sql fmt scope2 fp))).dataQueries := by
  refine ⟨?_, ?_, ?_⟩
  · exact congrArg (fun z => z.task.export_scope)
      (step_setScope ctx ev s.task.export_scope s)
  · exact run_setScope ctx tr scope1
      (initSys (mkTask tid uid db sql fmt scope2 fp))
  · have h := run_setScope ctx tr scope1
      (initSys (mkTask tid uid db sql fmt scope2 fp))
    exact congrArg (fun z => z.dataQueries) h

/-! ### Claim C8 — per-task timeout -/

/-- C8 (counterexample): a timeout during the data query leaves the task
FAILED with `error` set to the empty string — `str(TimeoutError())` — not a
non-empty, distinguishing timeout message. -/
theorem C8_counterexample :
    (run ctxSmall [.runnerStart, .runnerValidate, .runnerTimeout]
        (initSys t0)).task.status = .failed ∧
    (run ctxSmall [.runnerStart, .runnerValidate, .runnerTimeout]
        (initSys t0)).task.error = some "" ∧
    ("" : String).length = 0 := by
  refine ⟨by rfl, by rfl, by rfl⟩

/-- C8 (amended): `asyncio.wait_for` (default `export_timeout_seconds =
300`) wraps only the format-specific write execution — a timeout event
during validation is a no-op — and on expiry the task transitions to FAILED
with `completed_at` stamped, no file, and `error` set to
`str(TimeoutError())`, which is the empty string rather than a
distinguishing timeout message. -/
theorem C8_amended (ctx : RunCtx) (s s2 : Sys) (hq : s.phase = .querying)
    (hv : s2.phase = .validating) :
    (step ctx .runnerTimeout s).task.status = .failed ∧
    (step ctx .runnerTimeout s).task.error = some timeoutMessage ∧
    timeoutMessage = "" ∧
    (step ctx .runnerTimeout s).task.completed_at = some s.clock ∧
    (step ctx .runnerTimeout s).fileExists = false ∧
    (step ctx .runnerTimeout s).phase = .finished ∧
    defaultSettings.export_timeout_seconds = 300 ∧
    (step ctx .runnerTimeout s2).task = s2.task ∧
    (step ctx .runnerTimeout s2).fileExists = s2.fileExists := by
  obtain ⟨tk, fe, ph, ck, rs, dq⟩ := s
  obtain ⟨tk2, fe2, ph2, ck2, rs2, dq2⟩ := s2
  simp only at hq hv
  subst hq
  subst hv
  refine ⟨?_, ?_, rfl, ?_, rfl, rfl, rfl, rfl, rfl⟩ <;>
    simp [step, failStep, applyUpdate, TaskUpdate.empty]

/-- C8 witness: the amended statement evaluated on a concrete run that
times out right after validation passes. -/
theorem C8_witness :
    (step ctxSmall .runnerTimeout
        (run ctxSmall [.runnerStart, .runnerValidate]
          (initSys t0))).task.status = .failed ∧
    (step ctxSmall .runnerTimeout
        (run ctxSmall [.runnerStart, .runnerValidate]
          (initSys t0))).task.error = some timeoutMessage := by
  have h := C8_amended ctxSmall
    (run ctxSmall [.runnerStart, .runnerValidate] (initSys t0))
    (run ctxSmall [.runnerStart] (initSys t0)) (by rfl) (by rfl)
  exact ⟨h.1, h.2.1⟩

/-! ### Claim C9 — progress monotonicity -/

/-- C9: along every interleaving of runner and cancellation steps, the
task's published progress is non-decreasing (for adapters honouring the
in-repo `row_count=len(rows)` contract); it starts at 0 at creation, the
batch update on every 1000th row publishes `floor((idx+1)*100/row_count)`
(the float expression modelled as the exact rational floor), and the
COMPLETED transition forces progress to 100. -/
theorem C9_progress_monotone (ctx : RunCtx) (t : Task) (tr : List Ev) (ev : Ev)
    (s2 : Sys) (idx nrows rcount : Nat)
    (hA : AdapterOk ctx.adapter) (hp0 : t.progress = 0) :
    ((run ctx tr (initSys t)).task.progress ≤
      (step ctx ev (run ctx tr (initSys t))).task.progress) ∧
    (initSys t).task.progress = 0 ∧
    (s2.phase = .writing idx nrows rcount → idx < nrows →
      s2.task.cancel_requested = false → (idx + 1) % 1000 = 0 →
      (step ctx .runnerWriteRow s2).task.progress = (idx + 1) * 100 / rcount) ∧
    (s2.phase = .writing idx nrows rcount → nrows ≤ idx →
      s2.fileExists = true →
      (step ctx .runnerFinish s2).task.progress = 100) := by
  refine ⟨?_, hp0, ?_, ?_⟩
  · exact progress_mono_step ctx ev (run ctx tr (initSys t))
      (progressInv_run ctx hA tr (initSys t) (progressInv_init t hp0))
  · intro hp hlt hcan hb
    obtain ⟨tk, fe, ph, ck, rs, dq⟩ := s2
    simp only at hp hcan
    subst hp
    simp only [step, if_pos hlt, hcan, Bool.false_eq_true, if_false, if_pos hb,
      applyUpdate, TaskUpdate.empty]
  · intro hp hge hfe
    obtain ⟨tk, fe, ph, ck, rs, dq⟩ := s2
    simp only at hp hfe
    subst hp
    subst hfe
    simp [step, if_pos hge, applyUpdate, TaskUpdate.empty]

/-- C9 witness: the monotonicity, batch-update and forced-100 statements
evaluated on concrete states. -/
theorem C9_witness :
    ((run ctxSmall [.runnerStart] (initSys t0)).task.progress ≤
      (step ctxSmall .runnerValidate
        (run ctxSmall [.runnerStart] (initSys t0))).task.progress) ∧
    (step ctxSmall .runnerWriteRow
        { initSys t0 with phase := .writing 999 1000 1000 }).task.progress =
      (999 + 1) * 100 / 1000 ∧
    (step ctxSmall .runnerFinish
        { initSys t0 with
          phase := .writing 1 1 1
          fileExists := true }).task.progress = 100 := by
  refine ⟨?_, ?_, ?_⟩
  · exact (C9_progress_monotone ctxSmall t0 [.runnerStart] .runnerValidate
      (initSys t0) 0 0 0 adapterOk_adapterSmall (by rfl)).1
  · exact (C9_progress_monotone ctxSmall t0 [] .runnerStart
      { initSys t0 with phase := .writing 999 1000 1000 } 999 1000 1000
      adapterOk_adapterSmall (by rfl)).2.2.1 (by rfl) (by decide) (by rfl)
      (by decide)
  · exact (C9_progress_monotone ctxSmall t0 [] .runnerStart
      { initSys t0 with
        phase := .writing 1 1 1
        fileExists := true } 1 1 1
      adapterOk_adapterSmall (by rfl)).2.2.2 (by rfl) (by decide) (by rfl)

end DbExport
